import Mathlib

/-!
Shallow embedding of the websocket client core (`ws/client.go`) of the
ChargePi/ocpp-go repository, together with theorems checking the
natural-language specification of that file against the code.

Conventions of the embedding: Go durations are `Nat` nanoseconds, Go byte
strings are `List Nat`, Go channels of capacity one are modelled explicitly
as a buffer (holding at most one value) plus a closed flag, and the effect
of a statement on such a channel is computed from the sequential state in
which the statement runs.
-/

namespace OcppGo

/-! ## Capacity-one Go channels -/

/-- A Go channel of buffer capacity 1, as used for `errC` and `reconnectC`
in `ws/client.go`: a buffer holding at most one value, and a closed flag. -/
structure GoChan (ε : Type) where
  buf : List ε
  closed : Bool
  deriving Repr, DecidableEq

/-- Outcome of a send statement on a capacity-one channel. -/
inductive SendOutcome (ε : Type) where
  | delivered (c : GoChan ε)
  | blocked
  | droppedFull
  | panicked
  deriving Repr, DecidableEq

/-- A Go blocking send `ch <- v` on a capacity-one channel, seen from the
state of the sending task: sending on a closed channel panics, sending with
a free buffer slot delivers the value immediately, and sending on a full
buffer blocks the sending task until some receiver frees the slot. -/
def GoChan.send {ε : Type} (c : GoChan ε) (v : ε) : SendOutcome ε :=
  if c.closed then .panicked
  else if c.buf.length < 1 then .delivered { c with buf := c.buf ++ [v] }
  else .blocked

/-- A non-blocking send, the `select` with a `default` branch pattern:
delivers when a buffer slot is free, drops the value when the buffer is
full, and never blocks. Stated for comparison with `client.error` below,
which the specification describes as non-blocking. -/
def GoChan.trySend {ε : Type} (c : GoChan ε) (v : ε) : SendOutcome ε :=
  if c.closed then .panicked
  else if c.buf.length < 1 then .delivered { c with buf := c.buf ++ [v] }
  else .droppedFull

/-- Readiness and effect of a receive case inside a `select`: the case is
ready when a value is buffered or the channel is closed, and `none` means
the receive would block (open channel, empty buffer). A ready receive takes
the buffered value out of the slot when one is present. -/
def GoChan.tryRecv {ε : Type} (c : GoChan ε) : Option (GoChan ε) :=
  if c.buf.isEmpty then
    if c.closed then some c else none
  else some { c with buf := c.buf.tail }

/-! ## Timeout configuration and the reconnection loop -/

/-- The fields of `ClientTimeoutConfig` read by `ws/client.go`: durations in
nanoseconds, `retryBackOffRandomRange` in whole seconds,
`retryBackOffRepeatTimes` a bare count. -/
structure ClientTimeoutConfig where
  writeWait : Nat
  handshakeTimeout : Nat
  pongWait : Nat
  pingPeriod : Nat
  retryBackOffRepeatTimes : Nat
  retryBackOffRandomRange : Nat
  retryBackOffWaitMinimum : Nat
  deriving Repr, DecidableEq

/-- One second in nanoseconds (`time.Second`). -/
def second : Nat := 1000000000

/-- State of the loop of `client.handleReconnection` (`ws/client.go` lines
242 to 274): the current delay and the attempt counter. -/
structure ReconnState where
  delay : Nat
  reconnectionAttempts : Nat
  deriving Repr, DecidableEq

/-- Initial loop state of `handleReconnection`: the delay is
`RetryBackOffWaitMinimum` plus the first jitter draw in seconds, and the
attempt counter starts at 1. `jitter0` stands for the value returned by
`rand.Intn(RetryBackOffRandomRange+1)`, which lies in the inclusive range
from 0 to `RetryBackOffRandomRange`. -/
def reconnInit (cfg : ClientTimeoutConfig) (jitter0 : Nat) : ReconnState :=
  { delay := cfg.retryBackOffWaitMinimum + jitter0 * second
    reconnectionAttempts := 1 }

/-- The loop-body update of `handleReconnection` after a failed attempt
(lines 267 to 272): while the attempt counter is strictly below
`RetryBackOffRepeatTimes`, double the delay and add a fresh jitter draw in
seconds; then increment the counter unconditionally. -/
def reconnStep (cfg : ClientTimeoutConfig) (jitter : Nat) (s : ReconnState) : ReconnState :=
  { delay :=
      if s.reconnectionAttempts < cfg.retryBackOffRepeatTimes then
        2 * s.delay + jitter * second
      else s.delay
    reconnectionAttempts := s.reconnectionAttempts + 1 }

/-- The loop state before attempt `k + 1` of a run of `handleReconnection`
in which every attempt fails, where `u` is the stream of `rand.Intn` draws:
`u 0` is the draw taken for the initial delay and `u j` (for `j` at least 1)
the draw taken after failed attempt `j`. -/
def reconnStateAt (cfg : ClientTimeoutConfig) (u : Nat → Nat) : Nat → ReconnState
  | 0 => reconnInit cfg (u 0)
  | k + 1 => reconnStep cfg (u (k + 1)) (reconnStateAt cfg u k)

/-- The delay slept before reconnection attempt `k` (1-based) in a run of
`handleReconnection` in which every attempt fails. -/
def reconnDelay (cfg : ClientTimeoutConfig) (u : Nat → Nat) (k : Nat) : Nat :=
  (reconnStateAt cfg u (k - 1)).delay

/-! ## Errors -/

/-- `HttpConnectionError` as built in `client.Start` (lines 322 to 330):
the dial error message, the HTTP status text, the HTTP status code, and the
response body as details. -/
structure HttpConnectionError where
  message : String
  httpStatus : String
  httpCode : Nat
  details : String
  deriving Repr, DecidableEq

/-- Go `error` values produced by `ws/client.go`: plain message errors from
`fmt.Errorf`, and the enriched `HttpConnectionError`. -/
inductive GoError where
  | simple (msg : String)
  | http (e : HttpConnectionError)
  deriving Repr, DecidableEq

/-- The error returned by `client.Write` when the client is not connected
(line 285). -/
def notConnectedError : GoError :=
  .simple "client is currently not connected, cannot send data"

/-! ## Dialer, HTTP header, base64 -/

/-- The fields of `websocket.Dialer` that `ws/client.go` reads or writes. -/
structure Dialer where
  readBufferSize : Nat
  writeBufferSize : Nat
  handshakeTimeout : Nat
  subprotocols : List String
  tlsClientConfig : Option Nat
  deriving Repr, DecidableEq

/-- ASCII upper-casing of a single character, as Go does byte-wise. -/
def toUpperAscii (c : Char) : Char :=
  if 97 ≤ c.toNat && c.toNat ≤ 122 then Char.ofNat (c.toNat - 32) else c

/-- ASCII lower-casing of a single character, as Go does byte-wise. -/
def toLowerAscii (c : Char) : Char :=
  if 65 ≤ c.toNat && c.toNat ≤ 90 then Char.ofNat (c.toNat + 32) else c

/-- Go `textproto` validity of a header field byte: digits, letters, or one
of the token punctuation characters. -/
def validHeaderFieldChar (c : Char) : Bool :=
  (48 ≤ c.toNat && c.toNat ≤ 57) || (97 ≤ c.toNat && c.toNat ≤ 122) ||
  (65 ≤ c.toNat && c.toNat ≤ 90) ||
  [33, 35, 36, 37, 38, 39, 42, 43, 45, 46, 94, 95, 96, 124, 126].contains c.toNat

/-- The canonicalisation loop of Go `textproto.CanonicalMIMEHeaderKey`:
upper-case a letter at the start or after a hyphen (character code 45),
lower-case it otherwise. -/
def canonicalChars : Bool → List Char → List Char
  | _, [] => []
  | upper, ch :: rest =>
    let ch2 := if upper then toUpperAscii ch else toLowerAscii ch
    ch2 :: canonicalChars (ch2 == Char.ofNat 45) rest

/-- Go `textproto.CanonicalMIMEHeaderKey`, used by `http.Header.Set` and
`http.Header.Get`: keys made of valid header field characters are
canonicalised, any other key is returned unchanged. -/
def canonicalMIMEHeaderKey (s : String) : String :=
  if s.toList.all validHeaderFieldChar then String.mk (canonicalChars true s.toList) else s

/-- Go `http.Header.Set`: store the value under the canonical key,
replacing all previously stored values for that key. -/
def headerSet (h : List (String × String)) (key value : String) : List (String × String) :=
  let ck := canonicalMIMEHeaderKey key
  (ck, value) :: h.filter (fun p => !(p.1 == ck))

/-- Go `http.Header.Get`: the value stored under the canonical key. -/
def headerGet (h : List (String × String)) (key : String) : Option String :=
  (h.find? (fun p => p.1 == canonicalMIMEHeaderKey key)).map (fun p => p.2)

/-- The 64-character alphabet of Go `base64.StdEncoding`. -/
def base64Alphabet : List Char :=
  "ABCDEFGHIJKLMNOPQRSTUVWXYZabcdefghijklmnopqrstuvwxyz0123456789+/".toList

/-- Character of the standard base64 alphabet at a sextet value. -/
def base64Char (n : Nat) : Char := base64Alphabet.getD n (Char.ofNat 65)

/-- Go `base64.StdEncoding.EncodeToString` over a byte string: groups of
three bytes become four alphabet characters; a trailing group of one or two
bytes is padded with `=` (character code 61). -/
def base64StdEncode : List Nat → String
  | [] => ""
  | [a] =>
    String.mk [base64Char (a / 4 % 64), base64Char (a % 4 * 16),
      Char.ofNat 61, Char.ofNat 61]
  | [a, b] =>
    String.mk [base64Char (a / 4 % 64), base64Char (a % 4 * 16 + b / 16 % 16),
      base64Char (b % 16 * 4), Char.ofNat 61]
  | a :: b :: c :: rest =>
    String.mk [base64Char (a / 4 % 64), base64Char (a % 4 * 16 + b / 16 % 16),
      base64Char (b % 16 * 4 + c / 64 % 4), base64Char (c % 64)] ++ base64StdEncode rest

/-! ## The Session and the client -/

/-- Modelled from the spec: the Session type `webSocket` is declared outside
`src/`; per section 4.1 of the specification it carries an id, a closed
flag and an outbound queue of byte payloads. -/
structure webSocket where
  id : String
  closed : Bool
  outQueue : List (List Nat)
  deriving Repr, DecidableEq

/-- Modelled from the spec: Session `isConnected` (section 4.1) reports
whether the closed flag is false. -/
def webSocket.IsConnected (w : webSocket) : Bool := !w.closed

/-- Modelled from the spec: Session `write` (section 4.1) enqueues the
payload onto the outbound queue, and fails when the closed flag is set. -/
def webSocket.Write (w : webSocket) (data : List Nat) : webSocket × Option GoError :=
  if w.closed then (w, some notConnectedError)
  else ({ w with outQueue := w.outQueue ++ [data] }, none)

/-- A Go `interface` value passed to `client.AddOption`: either a dialer
mutator of type `func(*websocket.Dialer)`, on which the type assertion in
`AddOption` succeeds, or any other value, on which it fails. -/
inductive ClientOption where
  | dialerFn (f : Dialer → Dialer)
  | other (tag : Nat)

/-- The `client` struct of `ws/client.go` (lines 126 to 137), restricted to
the fields the claims exercise. The message, disconnect and reconnect
callbacks are tracked as presence flags. -/
structure client where
  webSocket : Option OcppGo.webSocket
  url : String
  dialOptions : List (Dialer → Dialer)
  header : List (String × String)
  timeoutConfig : ClientTimeoutConfig
  hasOnDisconnected : Bool
  hasOnReconnected : Bool
  errC : Option (GoChan GoError)
  reconnectC : GoChan Unit

/-- `NewClient` (lines 147 to 154). The default timeout configuration is
built by `NewClientTimeoutConfig`, which is declared outside `src/`, so the
configuration is taken as a parameter here. -/
def NewClient (cfg : ClientTimeoutConfig) : client :=
  { webSocket := none
    url := ""
    dialOptions := []
    header := []
    timeoutConfig := cfg
    hasOnDisconnected := false
    hasOnReconnected := false
    errC := none
    reconnectC := { buf := [], closed := false } }

/-- `client.AddOption` (lines 204 to 209): append the option to the
dial-option list when the type assertion to a dialer mutator succeeds, and
do nothing otherwise. -/
def client.AddOption (c : client) (option : ClientOption) : client :=
  match option with
  | .dialerFn f => { c with dialOptions := c.dialOptions ++ [f] }
  | .other _ => c

/-- The dialer mutator closure built by `client.SetRequestedSubProtocol`
(lines 212 to 223): append `subProto` to the dialer's subprotocol list
unless an equal entry already exists. -/
def subProtocolOption (subProto : String) (dialer : Dialer) : Dialer :=
  let alreadyExists := dialer.subprotocols.any (fun proto => proto == subProto)
  if alreadyExists then dialer
  else { dialer with subprotocols := dialer.subprotocols ++ [subProto] }

/-- `client.SetRequestedSubProtocol` (lines 211 to 225): wrap the dedup
closure as a dialer option and hand it to `AddOption`. -/
def client.SetRequestedSubProtocol (c : client) (subProto : String) : client :=
  c.AddOption (.dialerFn (subProtocolOption subProto))

/-- `client.SetBasicAuth` (lines 227 to 229): set the `Authorization`
header to the string `Basic ` followed by the standard base64 encoding of
the bytes of `username`, a colon (byte 58), and `password`. -/
def client.SetBasicAuth (c : client) (username password : List Nat) : client :=
  { c with header := (headerSet c.header "Authorization"
      ("Basic " ++ base64StdEncode (username ++ 58 :: password))) }

/-- `client.SetHeaderValue` (lines 231 to 233). -/
def client.SetHeaderValue (c : client) (key value : String) : client :=
  { c with header := headerSet c.header key value }

/-- `client.IsConnected` (lines 276 to 281): false when no Session exists,
otherwise the Session's connectedness. -/
def client.IsConnected (c : client) : Bool :=
  match c.webSocket with
  | none => false
  | some w => w.IsConnected

/-- `client.Write` (lines 283 to 289): fail with the not-connected error
when `IsConnected` is false, otherwise delegate to the Session write. -/
def client.Write (c : client) (data : List Nat) : client × Option GoError :=
  if c.IsConnected then
    match c.webSocket with
    | none => (c, some notConnectedError)
    | some w =>
      let p := w.Write data
      ({ c with webSocket := some p.1 }, p.2)
  else (c, some notConnectedError)

/-- The dialer built by `client.Start` (lines 309 to 317): the literal
dialer with buffer sizes 1024, the configured handshake timeout and an
empty subprotocol list, with the accumulated dial options applied in
order. -/
def client.startDialer (c : client) : Dialer :=
  c.dialOptions.foldl (fun dialer option => option dialer)
    { readBufferSize := 1024
      writeBufferSize := 1024
      handshakeTimeout := c.timeoutConfig.handshakeTimeout
      subprotocols := []
      tlsClientConfig := none }

/-- The HTTP response the websocket library may hand back along a failed
handshake (`resp` at line 320). -/
structure HttpResponse where
  status : String
  statusCode : Nat
  body : List Nat
  deriving Repr, DecidableEq

/-- Outcome of `dialer.Dial` as observed by `client.Start`: either an
established connection or an error message with an optional HTTP
response. -/
inductive DialOutcome where
  | ok
  | fail (errMsg : String) (resp : Option HttpResponse)
  deriving Repr, DecidableEq

/-- Idealisation of the Go conversion `string(body)` from bytes. -/
def goString (bs : List Nat) : String := String.mk (bs.map Char.ofNat)

/-- The handshake-failure handling of `client.Start` (lines 321 to 333):
when `Dial` fails and the server produced an HTTP response, wrap the error
into an `HttpConnectionError` carrying the dial error message, the status
text, the status code, and the response body read into the details field;
without an HTTP response return the dial error unchanged. -/
def startDialFailure (errMsg : String) (resp : Option HttpResponse) : GoError :=
  match resp with
  | some r =>
    let httpError0 : HttpConnectionError :=
      { message := errMsg, httpStatus := r.status, httpCode := r.statusCode, details := "" }
    let httpError := { httpError0 with details := goString r.body }
    .http httpError
  | none => .simple errMsg

/-- The dial step of `client.Start` (lines 318 to 359): on failure the
error of `startDialFailure` is returned and no Session is installed; on
success a fresh connected Session with the derived id is installed. URL
parsing and the id derivation from the final path segment happen outside
this step and are not needed by the claims. -/
def client.StartHandshake (c : client) (id : String) : DialOutcome → client × Option GoError
  | .fail errMsg resp => (c, some (startDialFailure errMsg resp))
  | .ok => ({ c with webSocket := some { id := id, closed := false, outQueue := [] } }, none)

/-! ## Error path, stop, disconnect -/

/-- `client.error` (lines 419 to 424): log, then — when the error channel
exists — send the error onto it with a plain (blocking) channel send. -/
def client.error (c : client) (err : GoError) : Option (SendOutcome GoError) :=
  match c.errC with
  | none => none
  | some ch => some (ch.send err)

/-- The reconnect-interrupt phase of `client.Stop` (lines 370 to 378): a
`select` whose receive case fires when `reconnectC` is ready, and whose
`default` branch performs a send of one interrupt. When the `default`
branch runs, the channel is open with an empty buffer, so the send
delivers immediately. -/
def stopReconnectPhase (rc : GoChan Unit) : GoChan Unit :=
  match rc.tryRecv with
  | some rc2 => rc2
  | none =>
    match rc.send () with
    | .delivered rc2 => rc2
    | _ => rc

/-- The error-channel phase of `client.Stop` (lines 379 to 389): a `select`
whose receive case fires when `errC` is ready; in the `default` branch the
channel is closed when non-nil. A nil `errC` makes the receive case never
ready, so the `default` branch runs and its nil check skips the close. -/
def stopErrorPhase (errC : Option (GoChan GoError)) : Option (GoChan GoError) :=
  match errC with
  | none => none
  | some ch =>
    match ch.tryRecv with
    | some ch2 => some ch2
    | none => some { ch with closed := true }

/-- `client.Stop` (lines 361 to 391). The graceful `webSocket.Close` call
is modelled from the spec (the Session type is declared outside `src/`):
it marks the Session closed and reports no error, the disconnect
notification being delivered asynchronously afterwards. -/
def client.Stop (c : client) : client :=
  let c1 :=
    if c.IsConnected then
      { c with webSocket := c.webSocket.map (fun w => { w with closed := true }) }
    else c
  { c1 with
      reconnectC := stopReconnectPhase c1.reconnectC
      errC := stopErrorPhase c1.errC }

/-- Observable effect of `client.handleDisconnect` (lines 408 to 417):
whether the user disconnect callback ran and with which error, and whether
the reconnection loop was started. -/
structure DisconnectEffect where
  onDisconnectedCalled : Bool
  onDisconnectedArg : Option GoError
  reconnectionStarted : Bool
  deriving Repr, DecidableEq

/-- `client.handleDisconnect` (lines 408 to 417): invoke the user
disconnect callback (when set) with the received error, then start the
reconnection loop exactly when the error is non-nil. -/
def client.handleDisconnect (c : client) (err : Option GoError) : DisconnectEffect :=
  { onDisconnectedCalled := c.hasOnDisconnected
    onDisconnectedArg := err
    reconnectionStarted := err.isSome }

/-- Modelled from the spec: the Session close path (`webSocket.Close`,
declared outside `src/`) delivers the disconnect notification of a
caller-initiated `Stop` with a nil error (specification sections 7 and 8,
scenario 1). -/
def stopDisconnectError : Option GoError := none

/-- What one iteration of the `handleReconnection` loop observes. -/
inductive AttemptOutcome where
  | interrupted
  | success
  | failure
  deriving Repr, DecidableEq

/-- Number of reconnect-callback invocations performed by a run of the
`handleReconnection` loop (lines 246 to 273), given the outcome of each
iteration: an interrupt exits without the callback, a successful attempt
invokes the callback (when set) and exits, a failed attempt continues. -/
def reconnectCallbackRuns (c : client) : List AttemptOutcome → Nat
  | [] => 0
  | .interrupted :: _ => 0
  | .success :: _ => if c.hasOnReconnected then 1 else 0
  | .failure :: rest => reconnectCallbackRuns c rest

/-- Number of reconnect-callback invocations performed downstream of one
disconnect event: the `handleReconnection` loop runs only when
`handleDisconnect` started it. -/
def disconnectPathReconnectRuns (c : client) (err : Option GoError)
    (outcomes : List AttemptOutcome) : Nat :=
  if (c.handleDisconnect err).reconnectionStarted then reconnectCallbackRuns c outcomes else 0

/-! ## Shared concrete samples -/

/-- A concrete timeout configuration for witnesses. -/
def sampleConfig : ClientTimeoutConfig :=
  { writeWait := 0
    handshakeTimeout := 0
    pongWait := 0
    pingPeriod := 0
    retryBackOffRepeatTimes := 3
    retryBackOffRandomRange := 2
    retryBackOffWaitMinimum := 7 }

/-- A concrete freshly created client for witnesses. -/
def sampleClient : client := NewClient sampleConfig

/-! ## Helper lemmas -/

theorem reconnStateAt_attempts (cfg : ClientTimeoutConfig) (u : Nat → Nat) (k : Nat) :
    (reconnStateAt cfg u k).reconnectionAttempts = k + 1 := by
  induction k with
  | zero => rfl
  | succ n ih => simp [reconnStateAt, reconnStep, ih]

theorem reconnStateAt_delay_stable (cfg : ClientTimeoutConfig) (u : Nat → Nat) (i : Nat)
    (h : cfg.retryBackOffRepeatTimes ≤ i + 1) :
    (reconnStateAt cfg u (i + 1)).delay = (reconnStateAt cfg u i).delay := by
  have ha := reconnStateAt_attempts cfg u i
  simp only [reconnStateAt, reconnStep]
  rw [ha, if_neg (by omega)]

theorem reconnStateAt_delay_const (cfg : ClientTimeoutConfig) (u : Nat → Nat) (m j : Nat)
    (h : cfg.retryBackOffRepeatTimes ≤ m + 1) :
    (reconnStateAt cfg u (m + j)).delay = (reconnStateAt cfg u m).delay := by
  induction j with
  | zero => rfl
  | succ n ih =>
    have hmj : m + (n + 1) = (m + n) + 1 := by omega
    rw [hmj, reconnStateAt_delay_stable cfg u (m + n) (by omega), ih]

theorem reconnDelay_grow (cfg : ClientTimeoutConfig) (u : Nat → Nat) (m : Nat)
    (h : m + 1 < cfg.retryBackOffRepeatTimes) :
    (reconnStateAt cfg u (m + 1)).delay =
      2 * (reconnStateAt cfg u m).delay + u (m + 1) * second := by
  have ha := reconnStateAt_attempts cfg u m
  simp only [reconnStateAt, reconnStep]
  rw [ha, if_pos h]

theorem subProtocolOption_count_le (x : String) (d : Dialer)
    (h : d.subprotocols.count x ≤ 1) :
    (subProtocolOption x d).subprotocols.count x ≤ 1 := by
  unfold subProtocolOption
  cases hmem : d.subprotocols.any (fun proto => proto == x) with
  | false =>
    have hnot : x ∉ d.subprotocols := by
      intro hx
      have htrue : (d.subprotocols.any fun proto => proto == x) = true :=
        List.any_eq_true.mpr ⟨x, hx, beq_self_eq_true x⟩
      rw [hmem] at htrue
      exact Bool.false_ne_true htrue
    simp [hmem, List.count_append, List.count_eq_zero.mpr hnot]
  | true => simpa [hmem] using h

theorem setSubProto_iterate_dialOptions (x : String) (c : client) (N : Nat) :
    ((fun cl => client.SetRequestedSubProtocol cl x)^[N] c).dialOptions =
      c.dialOptions ++ List.replicate N (subProtocolOption x) := by
  induction N generalizing c with
  | zero => simp
  | succ n ih =>
    rw [Function.iterate_succ_apply, ih]
    simp [client.SetRequestedSubProtocol, client.AddOption, List.replicate_succ]

theorem foldl_subProtocolOption_count (x : String) (N : Nat) (d : Dialer)
    (h : d.subprotocols.count x ≤ 1) :
    ((List.replicate N (subProtocolOption x)).foldl
      (fun dialer option => option dialer) d).subprotocols.count x ≤ 1 := by
  induction N generalizing d with
  | zero => simpa using h
  | succ n ih =>
    rw [List.replicate_succ, List.foldl_cons]
    exact ih _ (subProtocolOption_count_le x d h)

/-! ## Claim theorems -/

/-- C1: in a run of `handleReconnection` in which every attempt fails, the
delay before attempt 1 is `RetryBackOffWaitMinimum` plus a jitter draw in
seconds; for `2 ≤ k ≤ RetryBackOffRepeatTimes` the delay before attempt `k`
is twice the previous delay plus a fresh jitter draw in seconds; past
`RetryBackOffRepeatTimes` the delay stays constant. Every jitter draw lies
in the inclusive range 0 to `RetryBackOffRandomRange`. -/
theorem C1_backoff_recurrence (cfg : ClientTimeoutConfig) (u : Nat → Nat)
    (hu : ∀ i, u i ≤ cfg.retryBackOffRandomRange)
    (hN : 1 ≤ cfg.retryBackOffRepeatTimes) :
    (reconnDelay cfg u 1 = cfg.retryBackOffWaitMinimum + u 0 * second ∧
      u 0 ≤ cfg.retryBackOffRandomRange) ∧
    (∀ k, 2 ≤ k → k ≤ cfg.retryBackOffRepeatTimes →
      reconnDelay cfg u k = 2 * reconnDelay cfg u (k - 1) + u (k - 1) * second ∧
      u (k - 1) ≤ cfg.retryBackOffRandomRange) ∧
    (∀ k, cfg.retryBackOffRepeatTimes < k →
      reconnDelay cfg u k = reconnDelay cfg u cfg.retryBackOffRepeatTimes) := by
  refine ⟨⟨rfl, hu 0⟩, fun k h2 hk => ?_, fun k hk => ?_⟩
  · obtain ⟨m, rfl⟩ : ∃ m, k = m + 2 := ⟨k - 2, by omega⟩
    have h1 : m + 2 - 1 = m + 1 := by omega
    refine ⟨?_, hu _⟩
    unfold reconnDelay
    rw [h1, Nat.add_sub_cancel]
    exact reconnDelay_grow cfg u m (by omega)
  · have h1 : k - 1 = (cfg.retryBackOffRepeatTimes - 1) + (k - cfg.retryBackOffRepeatTimes) := by
      omega
    unfold reconnDelay
    rw [h1]
    exact reconnStateAt_delay_const cfg u _ _ (by omega)

/-- Witness for C1 at the sample configuration (minimum 7 ns, jitter range
2, repeat cap 3) with the constant jitter stream drawing 1. -/
theorem C1_witness :
    (∀ i : Nat, (fun _ : Nat => 1) i ≤ sampleConfig.retryBackOffRandomRange) ∧
    1 ≤ sampleConfig.retryBackOffRepeatTimes ∧
    reconnDelay sampleConfig (fun _ => 1) 1 = 7 + 1 * second ∧
    reconnDelay sampleConfig (fun _ => 1) 2 =
      2 * reconnDelay sampleConfig (fun _ => 1) 1 + 1 * second ∧
    reconnDelay sampleConfig (fun _ => 1) 5 = reconnDelay sampleConfig (fun _ => 1) 3 := by
  have h := C1_backoff_recurrence sampleConfig (fun _ => 1)
    (fun _ => by norm_num [sampleConfig]) (by decide)
  exact ⟨fun _ => by norm_num [sampleConfig], by decide, h.1.1,
    (h.2.1 2 (by decide) (by decide)).1, h.2.2 5 (by decide)⟩

/-- C2 as stated fails on the code: with the capacity-one buffer of the
error channel full, `client.error` performs a plain channel send that
blocks the sending task, whereas the claim says the error is dropped
without blocking — the behaviour of the non-blocking send shown in the
second conjunct. -/
theorem C2_counterexample :
    client.error
      { sampleClient with errC := some { buf := [GoError.simple "pending"], closed := false } }
      (GoError.simple "second") = some SendOutcome.blocked ∧
    GoChan.trySend { buf := [GoError.simple "pending"], closed := false }
      (GoError.simple "second") = SendOutcome.droppedFull ∧
    (SendOutcome.blocked : SendOutcome GoError) ≠ SendOutcome.droppedFull := by
  exact ⟨rfl, rfl, by decide⟩

/-- C2 (amended): while the error channel exists and is open, the internal
error path sends the error onto it with a plain blocking send: the error is
delivered when the capacity-one buffer is free, the sending task blocks
when the buffer is full, and the error is never dropped. -/
theorem C2_error_blocking (c : client) (ch : GoChan GoError) (err : GoError)
    (hch : c.errC = some ch) (hopen : ch.closed = false) :
    (ch.buf = [] → c.error err = some (SendOutcome.delivered { ch with buf := [err] })) ∧
    (ch.buf ≠ [] → c.error err = some SendOutcome.blocked) ∧
    c.error err ≠ some SendOutcome.droppedFull := by
  refine ⟨fun he => ?_, fun hne => ?_, ?_⟩
  · simp [client.error, hch, GoChan.send, hopen, he]
  · cases hb : ch.buf with
    | nil => exact absurd hb hne
    | cons a t => simp [client.error, hch, GoChan.send, hopen, hb]
  · cases hb : ch.buf with
    | nil => simp [client.error, hch, GoChan.send, hopen, hb]
    | cons a t => simp [client.error, hch, GoChan.send, hopen, hb]

/-- Witness for C2 (amended): on an open empty error channel the error is
delivered into the buffer slot. -/
theorem C2_witness :
    client.error { sampleClient with errC := some { buf := [], closed := false } }
      (GoError.simple "e") =
      some (SendOutcome.delivered { buf := [GoError.simple "e"], closed := false }) :=
  (C2_error_blocking
    { sampleClient with errC := some { buf := [], closed := false } }
    { buf := [], closed := false } (GoError.simple "e") rfl rfl).1 rfl

/-- C3 exposes a code bug: with an undelivered error buffered in the open
error channel, the `select` in `Stop` receives the buffered error through
the branch whose comment assumes an already-closed channel, and the channel
is left open — the claim, and the doc comment of `Errors`, say `Stop`
closes the channel in this state. -/
theorem C3_stop_leaves_error_channel_open :
    stopErrorPhase (some { buf := [GoError.simple "pending"], closed := false }) =
      some { buf := [], closed := false } ∧
    ({ buf := [], closed := false } : GoChan GoError).closed = false :=
  ⟨rfl, rfl⟩

/-- C4 exposes a code bug: when an interrupt is already pending in the
one-slot reconnect channel, the `select` in `Stop` consumes the pending
interrupt through the branch whose comment assumes an already-closed
channel and posts nothing, leaving no interrupt pending — the claim says
the pending interrupt remains in the slot. The second conjunct shows the
empty-slot case, where `Stop` does post one interrupt. -/
theorem C4_stop_consumes_pending_interrupt :
    stopReconnectPhase { buf := [()], closed := false } = { buf := [], closed := false } ∧
    stopReconnectPhase { buf := [], closed := false } = { buf := [()], closed := false } :=
  ⟨rfl, rfl⟩

/-- C5: calling `SetRequestedSubProtocol x` any positive number of times on
a fresh client and applying the accumulated dial options to the fresh
dialer built by `Start` yields a subprotocol list with at most one
occurrence of `x`. -/
theorem C5_subprotocol_dedup (cfg : ClientTimeoutConfig) (x : String) (N : Nat)
    (_hN : 1 ≤ N) :
    (((fun cl => client.SetRequestedSubProtocol cl x)^[N]
      (NewClient cfg)).startDialer).subprotocols.count x ≤ 1 := by
  unfold client.startDialer
  rw [setSubProto_iterate_dialOptions]
  simp only [NewClient, List.nil_append]
  exact foldl_subProtocolOption_count x N _ (by simp)

/-- Witness for C5 with three setter calls for the subprotocol ocpp1.6. -/
theorem C5_witness :
    1 ≤ 3 ∧
    (((fun cl => client.SetRequestedSubProtocol cl "ocpp1.6")^[3]
      (NewClient sampleConfig)).startDialer).subprotocols.count "ocpp1.6" ≤ 1 :=
  ⟨by decide, C5_subprotocol_dedup sampleConfig "ocpp1.6" 3 (by decide)⟩

/-- C6: `SetBasicAuth` sets the `Authorization` header to `Basic ` followed
by the standard base64 encoding of username, colon (byte 58), password,
overwriting any previous value; `SetHeaderValue` overwrites any previous
value stored for its key. -/
theorem C6_basic_auth (c : client) (u p : List Nat) (k v : String) :
    headerGet (c.SetBasicAuth u p).header "Authorization" =
      some ("Basic " ++ base64StdEncode (u ++ 58 :: p)) ∧
    headerGet (c.SetHeaderValue k v).header k = some v := by
  constructor <;>
    simp [client.SetBasicAuth, client.SetHeaderValue, headerGet, headerSet, List.find?]

/-- C7: when the handshake fails and the server returned an HTTP response,
`Start` returns an enriched error carrying the dial error message, the HTTP
status text, the HTTP status code, and the response body as details, and
installs no Session; when the handshake fails without an HTTP response, the
unenriched dial error is returned. -/
theorem C7_start_handshake_failure (c : client) (id errMsg : String) :
    (∀ r : HttpResponse,
      c.StartHandshake id (DialOutcome.fail errMsg (some r)) =
        (c, some (GoError.http
          { message := errMsg, httpStatus := r.status, httpCode := r.statusCode,
            details := goString r.body }))) ∧
    c.StartHandshake id (DialOutcome.fail errMsg none) = (c, some (GoError.simple errMsg)) :=
  ⟨fun _ => rfl, rfl⟩

/-- C8: `Write` fails with the not-connected error and enqueues nothing
when no Session exists or when the Session's closed flag is set, and
delegates the payload to the Session write otherwise; `IsConnected` is
false whenever no Session exists. -/
theorem C8_write_not_connected (c : client) (data : List Nat) :
    (c.webSocket = none → c.Write data = (c, some notConnectedError) ∧ c.IsConnected = false) ∧
    (∀ w : webSocket, c.webSocket = some w → w.closed = true →
      c.Write data = (c, some notConnectedError)) ∧
    (∀ w : webSocket, c.webSocket = some w → w.closed = false →
      c.Write data =
        ({ c with webSocket := some (w.Write data).1 }, (w.Write data).2)) := by
  refine ⟨fun h => ?_, fun w hw hcl => ?_, fun w hw hcl => ?_⟩
  · simp [client.Write, client.IsConnected, h]
  · simp [client.Write, client.IsConnected, webSocket.IsConnected, hw, hcl]
  · simp [client.Write, client.IsConnected, webSocket.IsConnected, hw, hcl]

/-- Witness for C8: on the fresh sample client (no Session), writing fails
with the not-connected error and `IsConnected` is false. -/
theorem C8_witness :
    sampleClient.Write [1, 2] = (sampleClient, some notConnectedError) ∧
    sampleClient.IsConnected = false :=
  (C8_write_not_connected sampleClient [1, 2]).1 rfl

/-- C9: the disconnect path starts the reconnection loop exactly when the
disconnect event carries a non-nil error; the nil-error disconnect produced
by a caller-initiated stop starts no reconnection, and no reconnect
callback runs downstream of it. -/
theorem C9_stop_no_reconnect (c : client) (outcomes : List AttemptOutcome) :
    (c.handleDisconnect stopDisconnectError).reconnectionStarted = false ∧
    (∀ err : Option GoError,
      (c.handleDisconnect err).reconnectionStarted = true ↔ err ≠ none) ∧
    disconnectPathReconnectRuns c stopDisconnectError outcomes = 0 := by
  refine ⟨rfl, fun err => ?_, rfl⟩
  cases err <;> simp [client.handleDisconnect]

/-- C10: `AddOption` with an argument that is not a dialer-mutator function
returns without error and leaves the dial-option list and every other field
of the client unchanged. -/
theorem C10_addOption_nonDialer_noop (c : client) (tag : Nat) :
    c.AddOption (ClientOption.other tag) = c := rfl

end OcppGo
